import Mathlib

/-!
Verification of the Smart Connection failover engine of a Telegram-driven
Cloudflare DNS bot (source files: bot.py, cloudflare_api.py).

The development shallowly embeds the pure decision logic of the engine:

* `check_ip_ping` (bot.py, lines 105-148): the verdict computed from the
  per-node ping results fetched from the external check-host service.
* `run_smart_check_logic` (bot.py, lines 268-322): the failover
  orchestrator.  Network effects are represented by oracle functions
  (`probe` for `check_ip_ping` outcomes, `applyOk` for
  `update_dns_record` outcomes) and the run is modelled as a pure
  function from its inputs to a `RunOutcome` recording the messages
  sent, the persisted IP pool, the final record content and the traces
  of probe/update calls.
* the `ADDING_RESERVE_IP` branch of `handle_message` (bot.py, lines
  629-643): `add_reserve_ips`.
* the `set_schedule_` branch of `handle_callback` (bot.py, lines
  874-897): `set_schedule`, with the job queue modelled as the list of
  names of live jobs.
-/

/-- JSON value appearing as one element of a single ping attempt
(an element of `ping_results[0]` in bot.py, line 134): either a JSON
string or some non-string value. -/
inductive PingField where
  | str (s : String)
  | nonstr
deriving DecidableEq

/-- JSON value representing one single ping attempt: either a JSON array
of fields or a non-array value (bot.py line 134 checks
`isinstance(single_ping, list)`). -/
inductive PingVal where
  | arr (fields : List PingField)
  | nonlist
deriving DecidableEq

/-- One ping attempt counts as successful when it is a nonempty array
whose first element is the string "OK"
(bot.py line 134: `isinstance(single_ping, list) and len(single_ping) > 0
and single_ping[0] == "OK"`). -/
def ping_ok : PingVal → Bool
  | .arr (.str s :: _) => s == "OK"
  | .arr _ => false
  | .nonlist => false

/-- `successful_pings_count` of bot.py line 134: the number of successful
single ping attempts reported by one node. -/
def successful_pings_count (pings : List PingVal) : Nat :=
  pings.countP ping_ok

/-- The result reported by one node, as consumed by bot.py lines 127-137.
`some pings` stands for a well-formed node value whose `ping_results[0]`
is the list `pings`; `none` stands for any malformed shape that the
guard at line 131 skips with `continue` (the node still counts towards
`total_nodes`, which was already incremented at line 128). -/
abbrev NodeVal := Option (List PingVal)

/-- A node counts as successful when at least one of its ping attempts
succeeded (bot.py lines 134-137). -/
def node_successful : NodeVal → Bool
  | some pings => decide (0 < successful_pings_count pings)
  | none => false

/-- Python `str.lower()` as used in `location.lower()` at bot.py
line 142, modelled as a character-wise lowercase map. -/
def str_lower (s : String) : String :=
  String.mk (s.toList.map Char.toLower)

/-- Structured form of the human-readable detail string returned by
`check_ip_ping`. -/
inductive PingDetail where
  | noNodes
  | nodeCount (successful total : Nat)
deriving DecidableEq

/-- Verdict core of `check_ip_ping` (bot.py lines 123-144): given the
vantage `location` and the fetched per-node results, compute the overall
verdict and the detail.  `results` is the list of node values in
iteration order of the fetched JSON object. -/
def check_ip_ping (location : String) (results : List NodeVal) :
    Bool × PingDetail :=
  let total_nodes := results.length
  let successful_nodes_count := results.countP node_successful
  if total_nodes = 0 then
    (false, .noNodes)
  else
    let is_overall_successful :=
      if str_lower location == "ir" then successful_nodes_count == total_nodes
      else decide (0 < successful_nodes_count)
    (is_overall_successful, .nodeCount successful_nodes_count total_nodes)

/-- The process-wide IP pool persisted in smart_connect_ips.json
(bot.py lines 99-100): the FIFO reserve list and the deprecated list. -/
structure IPLists where
  reserve : List String
  deprecated : List String
deriving DecidableEq

/-- `CLEAN_IP_SOURCE` of bot.py line 82: the seed reserve list used when
no pool file exists yet. -/
def CLEAN_IP_SOURCE : List String :=
  ["8.8.8.8", "8.8.4.4", "1.1.1.1", "1.0.0.1"]

/-- The pool state produced by `load_ip_lists` on first load
(bot.py line 99). -/
def initial_ip_lists : IPLists :=
  { reserve := CLEAN_IP_SOURCE, deprecated := [] }

/-- A DNS record as returned by `get_record_details`
(cloudflare_api.py / the mock in bot.py lines 24-39). -/
structure DnsRecord where
  name : String
  type : String
  content : String
  ttl : Nat
  proxied : Bool
deriving DecidableEq

/-- One entry of `auto_check_records` in smart_connect_settings.json:
zone id, record id, optional vantage ("location" key) and optional
interval. -/
structure RecordConfig where
  zone_id : String
  record_id : String
  location : Option String
  interval : Option Nat
deriving DecidableEq

/-- Match predicate of the `next(...)` lookups in bot.py lines 276, 837
and 878: an entry matches when both its record id and its zone id agree. -/
def config_matches (recordId zoneId : String) (c : RecordConfig) : Bool :=
  c.record_id == recordId && c.zone_id == zoneId

/-- `check_location` of bot.py line 278:
`record_config.get("location", "ir") if record_config else "ir"`. -/
def check_location_of (settings : List RecordConfig)
    (zoneId recordId : String) : String :=
  match settings.find? (config_matches recordId zoneId) with
  | some c => c.location.getD "ir"
  | none => "ir"

/-- Kind of Telegram message sent by `run_smart_check_logic`: the manual
probe report of bot.py line 283, or the accumulated run notification of
bot.py line 321 (whose text ends with the hard warning of line 316
exactly when no healthy replacement was found). -/
inductive MsgKind where
  | manualProbeReport
  | runReport (exhaustedWarning : Bool)
deriving DecidableEq

/-- Result of the candidate rotation loop (bot.py lines 296-313). -/
structure LoopResult where
  reserve : List String
  deprecated : List String
  content : String
  found : Bool
  probes : List (String × String)
  applies : List (String × Bool)
deriving DecidableEq

/-- The `while ip_lists["reserve"]:` loop of bot.py lines 297-313.
Arguments: the probe oracle, the vantage used for every candidate probe,
the `update_dns_record` success oracle, the reserve list, the deprecated
list, and the current record content.  Each iteration pops the head of
reserve, tries to apply it (recording the attempt in `applies`); on a
successful apply the content becomes the candidate and it is probed
(recorded in `probes`); a healthy probe stops the loop with
`found = true`, an unhealthy one appends the candidate to deprecated
(if absent) and continues; a failed apply just continues. -/
def smart_check_loop (probe : String → String → Bool) (loc : String)
    (applyOk : String → Bool) :
    List String → List String → String → LoopResult
  | [], dep, content =>
      { reserve := [], deprecated := dep, content := content, found := false,
        probes := [], applies := [] }
  | next :: rest, dep, content =>
      if applyOk next then
        if probe next loc then
          { reserve := rest, deprecated := dep, content := next, found := true,
            probes := [(next, loc)], applies := [(next, true)] }
        else
          let dep' := if next ∈ dep then dep else dep ++ [next]
          let r := smart_check_loop probe loc applyOk rest dep' next
          { reserve := r.reserve, deprecated := r.deprecated,
            content := r.content, found := r.found,
            probes := (next, loc) :: r.probes,
            applies := (next, true) :: r.applies }
      else
        let r := smart_check_loop probe loc applyOk rest dep content
        { reserve := r.reserve, deprecated := r.deprecated,
          content := r.content, found := r.found, probes := r.probes,
          applies := (next, false) :: r.applies }

/-- Observable outcome of one `run_smart_check_logic` call. -/
structure RunOutcome where
  msgs : List (Nat × MsgKind)
  lists : IPLists
  saved : Bool
  finalContent : Option String
  probes : List (String × String)
  applies : List (String × Bool)
  newIpFound : Bool
deriving DecidableEq

/-- `run_smart_check_logic` of bot.py lines 268-322, as a pure function.
`recordDetails` is the result of `get_record_details` (none when the
record is missing, in which case the function only logs and returns,
line 270-272).  `probe ip loc` gives the verdict of `check_ip_ping ip
loc`; `applyOk ip` gives the return value of `update_dns_record` when
called with content `ip` (all its other arguments are fixed by the
record).  `lists0` is the pool loaded at line 288; `userId = 0` marks a
scheduled run.  The outcome records the messages sent (line 283 and
line 321), the final pool together with whether `save_ip_lists` ran
(line 318), the final record content, the probe calls made with their
vantage, the update calls made with their success, and the
`new_ip_found` flag. -/
def run_smart_check_logic (adminId : Nat) (recordDetails : Option DnsRecord)
    (settings : List RecordConfig) (zoneId recordId : String)
    (probe : String → String → Bool) (applyOk : String → Bool)
    (lists0 : IPLists) (userId : Nat) : RunOutcome :=
  match recordDetails with
  | none =>
      { msgs := [], lists := lists0, saved := false, finalContent := none,
        probes := [], applies := [], newIpFound := false }
  | some rec =>
      let current_ip := rec.content
      let check_location := check_location_of settings zoneId recordId
      let is_pinging := probe current_ip check_location
      let msgs0 : List (Nat × MsgKind) :=
        if userId ≠ 0 then [(userId, .manualProbeReport)] else []
      if is_pinging then
        { msgs := msgs0, lists := lists0, saved := false,
          finalContent := some current_ip,
          probes := [(current_ip, check_location)], applies := [],
          newIpFound := false }
      else
        let reserve1 := lists0.reserve.erase current_ip
        let dep1 :=
          if current_ip ∈ lists0.deprecated then lists0.deprecated
          else lists0.deprecated ++ [current_ip]
        let r := smart_check_loop probe check_location applyOk reserve1 dep1
          current_ip
        let target := if userId ≠ 0 then userId else adminId
        { msgs := msgs0 ++ [(target, .runReport (!r.found))],
          lists := { reserve := r.reserve, deprecated := r.deprecated },
          saved := true, finalContent := some r.content,
          probes := (current_ip, check_location) :: r.probes,
          applies := r.applies, newIpFound := r.found }

/-- Delimiter class of the token split in bot.py line 631,
`re.split(r'[,\s\n]+', text)`: a comma or an (ASCII) whitespace
character. -/
def is_split_char (c : Char) : Bool :=
  c == ',' || c == ' ' || c == '\t' || c == '\n' || c == '\r' ||
    c == '\x0b' || c == '\x0c'

/-- `new_ips` of bot.py line 631: the maximal delimiter-free substrings
of the input.  Splitting on every delimiter character and dropping empty
pieces is what the Python pipeline (split on runs of delimiters, strip,
keep nonempty) produces. -/
def split_ips (text : String) : List String :=
  ((text.toList.splitOnP is_split_char).map (fun l => String.mk l)).filter
    (fun s => s != "")

/-- One iteration of the `for ip in new_ips:` loop of bot.py lines
637-640: append the token to reserve and bump the counter unless it is
already in reserve or in deprecated. -/
def add_ip_step (st : IPLists × Nat) (ip : String) : IPLists × Nat :=
  if ip ∉ st.1.reserve ∧ ip ∉ st.1.deprecated then
    ({ reserve := st.1.reserve ++ [ip], deprecated := st.1.deprecated },
      st.2 + 1)
  else st

/-- The `ADDING_RESERVE_IP` branch of `handle_message`
(bot.py lines 629-643): split the raw text into tokens, add each
genuinely-new one to reserve, and return the new pool together with
`added_count`. -/
def add_reserve_ips (ls : IPLists) (text : String) : IPLists × Nat :=
  (split_ips text).foldl add_ip_step (ls, 0)

/-- `asyncio.Semaphore(5)` of bot.py line 989: the admission limit of the
semaphore shared by all smart-check runs. -/
def main_semaphore_limit : Nat := 5

/-- One mutation of the shared IP pool file: the add-reserve handler, one
failover run (only its pool effect), or the clear-deprecated handler of
bot.py lines 861-864. -/
inductive PoolOp where
  | addReserve (text : String)
  | smartCheck (adminId : Nat) (recordDetails : Option DnsRecord)
      (settings : List RecordConfig) (zoneId recordId : String)
      (probe : String → String → Bool) (applyOk : String → Bool)
      (userId : Nat)
  | clearDeprecated

/-- Effect of one pool operation on the persisted pool state. -/
def apply_pool_op (ls : IPLists) : PoolOp → IPLists
  | .addReserve text => (add_reserve_ips ls text).1
  | .smartCheck a rd st z r p ap u =>
      (run_smart_check_logic a rd st z r p ap ls u).lists
  | .clearDeprecated => { reserve := ls.reserve, deprecated := [] }

/-- State of the scheduler: the persisted `auto_check_records` list and
the names of the live jobs in the job queue. -/
structure SchedState where
  configs : List RecordConfig
  jobs : List String
deriving DecidableEq

/-- `job_name` of bot.py line 879. -/
def job_name (zoneId recordId : String) : String :=
  "smart_check_" ++ zoneId ++ "_" ++ recordId

/-- In-place `record_config["interval"] = interval` of bot.py line 889:
update the interval of the first matching entry. -/
def set_interval_first :
    List RecordConfig → String → String → Nat → List RecordConfig
  | [], _, _, _ => []
  | c :: rest, z, r, i =>
      if config_matches r z c then { c with interval := some i } :: rest
      else c :: set_interval_first rest z r i

/-- `record_list.remove(record_config)` of bot.py line 893: remove the
first matching entry. -/
def remove_first_config :
    List RecordConfig → String → String → List RecordConfig
  | [], _, _ => []
  | c :: rest, z, r =>
      if config_matches r z c then rest
      else c :: remove_first_config rest z r

/-- The `set_schedule_` branch of `handle_callback` (bot.py lines
874-897): look up the config entry for the key, remove every live job
with the key's name (lines 881-882); for a positive interval register
one new job and upsert the entry (appending a fresh entry with location
"ir" when none exists, line 887); for interval 0 remove the entry and
register nothing. -/
def set_schedule (st : SchedState) (zoneId recordId : String)
    (interval : Nat) : SchedState :=
  let name := job_name zoneId recordId
  let record_config := st.configs.find? (config_matches recordId zoneId)
  let jobs1 := st.jobs.filter (fun j => j != name)
  if 0 < interval then
    { configs :=
        match record_config with
        | none =>
            st.configs ++
              [{ zone_id := zoneId, record_id := recordId,
                 location := some "ir", interval := some interval }]
        | some _ => set_interval_first st.configs zoneId recordId interval
      , jobs := jobs1 ++ [name] }
  else
    { configs :=
        match record_config with
        | none => st.configs
        | some _ => remove_first_config st.configs zoneId recordId
      , jobs := jobs1 }

/-- Two failover runs interleaved as the cooperative scheduler allows:
both runs load the pool file (bot.py line 288) before either saves
(line 318) — possible because each run awaits `check_ip_ping` between
its load and its save, and the semaphore of bot.py line 989 admits up to
`main_semaphore_limit` runs at once.  Run 2 saves last, so the final
file content is its pool. -/
def concurrent_runs_shared_load (adminId : Nat) (rec1 rec2 : DnsRecord)
    (settings : List RecordConfig) (zoneId recId1 recId2 : String)
    (probe : String → String → Bool) (applyOk : String → Bool)
    (file0 : IPLists) : RunOutcome × RunOutcome × IPLists :=
  let o1 := run_smart_check_logic adminId (some rec1) settings zoneId recId1
    probe applyOk file0 0
  let o2 := run_smart_check_logic adminId (some rec2) settings zoneId recId2
    probe applyOk file0 0
  (o1, o2, o2.lists)

/-! ### Helper lemmas -/

lemma count_name_filter_self (jobs : List String) (name : String) :
    (jobs.filter (fun j => j != name)).count name = 0 := by
  rw [List.count_eq_zero]
  intro hmem
  have h := List.mem_filter.mp hmem
  simp at h

lemma count_name_filter_ne (jobs : List String) (name n : String)
    (h : n ≠ name) :
    (jobs.filter (fun j => j != name)).count n = jobs.count n := by
  apply List.count_filter
  simp [h]

lemma set_schedule_count_pos (st : SchedState) (z r : String) (i : Nat)
    (hi : 0 < i) :
    (set_schedule st z r i).jobs.count (job_name z r) = 1 := by
  simp only [set_schedule, if_pos hi]
  rw [List.count_append, count_name_filter_self]
  simp

lemma find?_remove_first_of_countP_le_one (l : List RecordConfig)
    (z r : String) (h : l.countP (config_matches r z) ≤ 1) :
    (remove_first_config l z r).find? (config_matches r z) = none := by
  induction l with
  | nil => rfl
  | cons c rest ih =>
    by_cases hc : config_matches r z c = true
    · simp only [remove_first_config, if_pos hc]
      rw [List.find?_eq_none]
      intro x hx
      have hcount : rest.countP (config_matches r z) = 0 := by
        rw [List.countP_cons, hc] at h
        simp only [if_true] at h
        omega
      simpa using List.countP_eq_zero.mp hcount x hx
    · simp only [remove_first_config, if_neg hc]
      rw [List.find?_cons_of_neg _ hc]
      apply ih
      rw [List.countP_cons] at h
      simp only [hc, if_false] at h
      simpa using h

/-! ### C2 -/

/-- C2: for every probe verdict computed from fetched results: with
vantage "ir" the verdict is success iff every node present in the
results had at least one successful ping attempt; with any other vantage
(one not lowercasing to "ir") the verdict is success iff at least one
node had a successful attempt; and with zero nodes in the fetched
results the verdict is failure with the no-nodes detail. -/
theorem check_ip_ping_verdict_policy (location : String)
    (results : List NodeVal) :
    (results = [] →
      check_ip_ping location results = (false, PingDetail.noNodes)) ∧
    (results ≠ [] → location = "ir" →
      ((check_ip_ping location results).1 = true ↔
        ∀ v ∈ results, node_successful v = true)) ∧
    (results ≠ [] → str_lower location ≠ "ir" →
      ((check_ip_ping location results).1 = true ↔
        ∃ v ∈ results, node_successful v = true)) := by
  refine ⟨?_, ?_, ?_⟩
  · intro h
    subst h
    rfl
  · intro hne hloc
    subst hloc
    have hlen : ¬ results.length = 0 := by simpa using hne
    have hir : (str_lower ("ir") == "ir") = true := by decide
    simp only [check_ip_ping, if_neg hlen, hir, if_pos rfl, if_true]
    rw [beq_iff_eq]
    exact List.countP_eq_length
  · intro hne hloc
    have hlen : ¬ results.length = 0 := by simpa using hne
    have hir : (str_lower location == "ir") = false := by simpa using hloc
    simp only [check_ip_ping, if_neg hlen, hir, Bool.false_eq_true,
      if_false, decide_eq_true_eq]
    exact List.countP_pos_iff

/-- Concrete inputs shared by several witnesses. -/
def ok_ping : PingVal := PingVal.arr [PingField.str ("OK")]

def bad_ping : PingVal := PingVal.arr [PingField.str ("TIMEOUT")]

def demo_nodes : List NodeVal := [some [ok_ping], some [ok_ping], some [bad_ping]]

/-- Witness for C2: three nodes, two of them successful — strict vantage
"ir" yields failure, lenient vantage "de" yields success, and the empty
result set yields the no-nodes failure. -/
theorem check_ip_ping_verdict_policy_witness :
    check_ip_ping ("ir") [] = (false, PingDetail.noNodes) ∧
    (check_ip_ping ("ir") demo_nodes).1 ≠ true ∧
    (check_ip_ping ("de") demo_nodes).1 = true := by
  refine ⟨(check_ip_ping_verdict_policy ("ir") []).1 rfl, ?_, ?_⟩
  · intro h
    have h2 := ((check_ip_ping_verdict_policy ("ir") demo_nodes).2.1
      (by decide) rfl).mp h
    exact absurd (h2 (some [bad_ping]) (by decide)) (by decide)
  · exact ((check_ip_ping_verdict_policy ("de") demo_nodes).2.2
      (by decide) (by decide)).mpr ⟨some [ok_ping], by decide, by decide⟩

/-! ### C7 -/

/-- C7: setting interval 0 for a record deletes its config entry and
leaves no live timer for its key; setting a nonzero interval leaves
exactly one live timer for the key (cancelling any existing ones first);
timers of other keys are untouched; and setting a nonzero interval right
after any setting still leaves exactly one timer.  The hypothesis states
the config-store shape invariant: at most one entry per key. -/
theorem set_schedule_timer_uniqueness (st : SchedState) (z r : String)
    (i : Nat) (huniq : st.configs.countP (config_matches r z) ≤ 1) :
    (i = 0 →
      (set_schedule st z r i).configs.find? (config_matches r z) = none ∧
      (set_schedule st z r i).jobs.count (job_name z r) = 0) ∧
    (0 < i → (set_schedule st z r i).jobs.count (job_name z r) = 1) ∧
    (∀ n, n ≠ job_name z r →
      (set_schedule st z r i).jobs.count n = st.jobs.count n) ∧
    (∀ j, 0 < j →
      (set_schedule (set_schedule st z r i) z r j).jobs.count
        (job_name z r) = 1) := by
  refine ⟨?_, ?_, ?_, ?_⟩
  · intro hi
    subst hi
    constructor
    · simp only [set_schedule, Nat.lt_irrefl, if_false]
      cases hf : st.configs.find? (config_matches r z) with
      | none => simp [hf]
      | some c =>
          simpa [hf] using
            find?_remove_first_of_countP_le_one st.configs z r huniq
    · simp only [set_schedule, Nat.lt_irrefl, if_false]
      exact count_name_filter_self st.jobs (job_name z r)
  · intro hi
    exact set_schedule_count_pos st z r i hi
  · intro n hn
    by_cases hi : 0 < i
    · simp only [set_schedule, if_pos hi]
      rw [List.count_append, count_name_filter_ne _ _ _ hn]
      simp [List.count_cons, hn]
    · simp only [set_schedule, if_neg hi]
      exact count_name_filter_ne _ _ _ hn
  · intro j hj
    exact set_schedule_count_pos _ z r j hj

/-- Config store used by the C7 witness: one matching entry, and two
stale live jobs for the same key. -/
def demo_sched : SchedState :=
  { configs :=
      [{ zone_id := "z1", record_id := "r1", location := some "de",
         interval := some 1800 }]
    , jobs := [job_name "z1" "r1", job_name "z1" "r1"] }

/-- Witness for C7 at a concrete store: interval 0 removes the entry and
all timers for the key; two consecutive nonzero settings leave exactly
one timer. -/
theorem set_schedule_timer_uniqueness_witness :
    ((set_schedule demo_sched "z1" "r1" 0).configs.find?
        (config_matches "r1" "z1") = none ∧
      (set_schedule demo_sched "z1" "r1" 0).jobs.count
        (job_name "z1" "r1") = 0) ∧
    (set_schedule (set_schedule demo_sched "z1" "r1" 1800) "z1" "r1"
        3600).jobs.count (job_name "z1" "r1") = 1 := by
  constructor
  · exact (set_schedule_timer_uniqueness demo_sched "z1" "r1" 0
      (by decide)).1 rfl
  · exact (set_schedule_timer_uniqueness demo_sched "z1" "r1" 1800
      (by decide)).2.2.2 3600 (by decide)

/-! ### C10 -/

lemma add_ip_step_dep (st : IPLists × Nat) (ip : String) :
    (add_ip_step st ip).1.deprecated = st.1.deprecated := by
  unfold add_ip_step
  split <;> rfl

lemma add_ip_step_len (st : IPLists × Nat) (ip : String) :
    (add_ip_step st ip).1.reserve.length + st.2 =
      (add_ip_step st ip).2 + st.1.reserve.length := by
  unfold add_ip_step
  split
  · simp only [List.length_append, List.length_cons, List.length_nil]
    omega
  · omega

lemma add_ip_step_mono (st : IPLists × Nat) (ip x : String)
    (h : x ∈ st.1.reserve) : x ∈ (add_ip_step st ip).1.reserve := by
  unfold add_ip_step
  split
  · simp [h]
  · exact h

lemma add_ip_step_adds (st : IPLists × Nat) (ip : String) :
    ip ∈ (add_ip_step st ip).1.reserve ∨ ip ∈ st.1.deprecated := by
  unfold add_ip_step
  split
  · left
    simp
  · rename_i h
    by_cases hr : ip ∈ st.1.reserve
    · left
      exact hr
    · right
      tauto

lemma add_fold_dep :
    ∀ (toks : List String) (st : IPLists × Nat),
      (toks.foldl add_ip_step st).1.deprecated = st.1.deprecated
  | [], _ => rfl
  | t :: rest, st => by
      rw [List.foldl_cons, add_fold_dep rest, add_ip_step_dep]

lemma add_fold_len :
    ∀ (toks : List String) (st : IPLists × Nat),
      (toks.foldl add_ip_step st).1.reserve.length + st.2 =
        (toks.foldl add_ip_step st).2 + st.1.reserve.length
  | [], st => Nat.add_comm st.1.reserve.length st.2
  | t :: rest, st => by
      rw [List.foldl_cons]
      have h1 := add_fold_len rest (add_ip_step st t)
      have h2 := add_ip_step_len st t
      omega

lemma add_fold_mono :
    ∀ (toks : List String) (st : IPLists × Nat) (x : String),
      x ∈ st.1.reserve → x ∈ (toks.foldl add_ip_step st).1.reserve
  | [], _, _, h => h
  | t :: rest, st, x, h =>
      add_fold_mono rest (add_ip_step st t) x (add_ip_step_mono st t x h)

lemma add_fold_tok_mem :
    ∀ (toks : List String) (st : IPLists × Nat) (t : String),
      t ∈ toks →
        t ∈ (toks.foldl add_ip_step st).1.reserve ∨ t ∈ st.1.deprecated
  | [], _, _, h => absurd h (List.not_mem_nil _)
  | t' :: rest, st, t, h => by
      rcases List.mem_cons.mp h with h1 | h2
      · subst h1
        rcases add_ip_step_adds st t with h3 | h3
        · exact Or.inl (add_fold_mono rest _ t h3)
        · exact Or.inr h3
      · rcases add_fold_tok_mem rest (add_ip_step st t') t h2 with h3 | h3
        · exact Or.inl h3
        · rw [add_ip_step_dep] at h3
          exact Or.inr h3

/-- C10: the add-reserve-IPs operation validates nothing: every token of
the split input ends up in the reserve list (or was already in the
deprecated list), whatever its content; the deprecated list is
untouched; and the reported added count is exactly the number of tokens
appended to reserve. -/
theorem add_reserve_ips_no_validation (ls : IPLists) (text : String) :
    (add_reserve_ips ls text).1.reserve.length =
      ls.reserve.length + (add_reserve_ips ls text).2 ∧
    (add_reserve_ips ls text).1.deprecated = ls.deprecated ∧
    ∀ tok ∈ split_ips text,
      tok ∈ (add_reserve_ips ls text).1.reserve ∨ tok ∈ ls.deprecated := by
  refine ⟨?_, add_fold_dep _ _, ?_⟩
  · have h := add_fold_len (split_ips text) (ls, 0)
    simp only [add_reserve_ips]
    simp at h
    omega
  · intro tok htok
    exact add_fold_tok_mem (split_ips text) (ls, 0) tok htok

/-- Pool used by the add-reserve witnesses: one reserve entry and one
deprecated entry. -/
def demo_pool : IPLists :=
  { reserve := ["1.1.1.1"], deprecated := ["2.2.2.2"] }

/-- Raw input used by the add-reserve witness: a reserve duplicate, a
deprecated duplicate, a plainly non-IP token and a new IP. -/
def demo_text : String := "1.1.1.1, 2.2.2.2  not-an-ip!!\n9.9.9.9"

/-- Witness for C10: on the demo input the count law holds and the
non-IP token is accepted into the reserve list. -/
theorem add_reserve_ips_no_validation_witness :
    (add_reserve_ips demo_pool demo_text).1.reserve.length =
      demo_pool.reserve.length + (add_reserve_ips demo_pool demo_text).2 ∧
    (("not-an-ip!!" : String) ∈
        (add_reserve_ips demo_pool demo_text).1.reserve ∨
      ("not-an-ip!!" : String) ∈ demo_pool.deprecated) := by
  refine ⟨(add_reserve_ips_no_validation demo_pool demo_text).1, ?_⟩
  exact (add_reserve_ips_no_validation demo_pool demo_text).2.2
    ("not-an-ip!!") (by decide)

/-! ### Lemmas about the candidate rotation loop -/

lemma smart_check_loop_nil (probe : String → String → Bool) (loc : String)
    (ap : String → Bool) (dep : List String) (c : String) :
    smart_check_loop probe loc ap [] dep c =
      { reserve := [], deprecated := dep, content := c, found := false,
        probes := [], applies := [] } := rfl

lemma smart_check_loop_cons_pos_pos (probe : String → String → Bool)
    (loc : String) (ap : String → Bool) (next : String) (rest dep : List String)
    (c : String) (h1 : ap next = true) (h2 : probe next loc = true) :
    smart_check_loop probe loc ap (next :: rest) dep c =
      { reserve := rest, deprecated := dep, content := next, found := true,
        probes := [(next, loc)], applies := [(next, true)] } := by
  simp [smart_check_loop, h1, h2]

lemma smart_check_loop_cons_pos_neg (probe : String → String → Bool)
    (loc : String) (ap : String → Bool) (next : String) (rest dep : List String)
    (c : String) (h1 : ap next = true) (h2 : probe next loc = false) :
    smart_check_loop probe loc ap (next :: rest) dep c =
      (let r := smart_check_loop probe loc ap rest
        (if next ∈ dep then dep else dep ++ [next]) next
       { reserve := r.reserve, deprecated := r.deprecated,
         content := r.content, found := r.found,
         probes := (next, loc) :: r.probes,
         applies := (next, true) :: r.applies }) := by
  simp [smart_check_loop, h1, h2]

lemma smart_check_loop_cons_neg (probe : String → String → Bool)
    (loc : String) (ap : String → Bool) (next : String) (rest dep : List String)
    (c : String) (h1 : ap next = false) :
    smart_check_loop probe loc ap (next :: rest) dep c =
      (let r := smart_check_loop probe loc ap rest dep c
       { reserve := r.reserve, deprecated := r.deprecated,
         content := r.content, found := r.found, probes := r.probes,
         applies := (next, false) :: r.applies }) := by
  simp [smart_check_loop, h1]

lemma smart_check_loop_reserve_sub (probe : String → String → Bool)
    (loc : String) (ap : String → Bool) :
    ∀ (rs dep : List String) (c x : String),
      x ∈ (smart_check_loop probe loc ap rs dep c).reserve → x ∈ rs := by
  intro rs
  induction rs with
  | nil =>
      intro dep c x h
      rw [smart_check_loop_nil] at h
      simp at h
  | cons next rest ih =>
      intro dep c x h
      cases h1 : ap next with
      | true =>
          cases h2 : probe next loc with
          | true =>
              rw [smart_check_loop_cons_pos_pos probe loc ap next rest dep c
                h1 h2] at h
              exact List.mem_cons_of_mem _ h
          | false =>
              rw [smart_check_loop_cons_pos_neg probe loc ap next rest dep c
                h1 h2] at h
              exact List.mem_cons_of_mem _ (ih _ _ x h)
      | false =>
          rw [smart_check_loop_cons_neg probe loc ap next rest dep c h1] at h
          exact List.mem_cons_of_mem _ (ih _ _ x h)

lemma smart_check_loop_dep_sub (probe : String → String → Bool)
    (loc : String) (ap : String → Bool) :
    ∀ (rs dep : List String) (c x : String),
      x ∈ (smart_check_loop probe loc ap rs dep c).deprecated →
        x ∈ dep ∨ x ∈ rs := by
  intro rs
  induction rs with
  | nil =>
      intro dep c x h
      rw [smart_check_loop_nil] at h
      exact Or.inl h
  | cons next rest ih =>
      intro dep c x h
      cases h1 : ap next with
      | true =>
          cases h2 : probe next loc with
          | true =>
              rw [smart_check_loop_cons_pos_pos probe loc ap next rest dep c
                h1 h2] at h
              exact Or.inl h
          | false =>
              rw [smart_check_loop_cons_pos_neg probe loc ap next rest dep c
                h1 h2] at h
              rcases ih _ _ x h with h3 | h3
              · by_cases h4 : next ∈ dep
                · rw [if_pos h4] at h3
                  exact Or.inl h3
                · rw [if_neg h4] at h3
                  rcases List.mem_append.mp h3 with h5 | h5
                  · exact Or.inl h5
                  · simp at h5
                    subst h5
                    exact Or.inr (List.mem_cons_self _ _)
              · exact Or.inr (List.mem_cons_of_mem _ h3)
      | false =>
          rw [smart_check_loop_cons_neg probe loc ap next rest dep c h1] at h
          rcases ih _ _ x h with h3 | h3
          · exact Or.inl h3
          · exact Or.inr (List.mem_cons_of_mem _ h3)

lemma smart_check_loop_applies_sub (probe : String → String → Bool)
    (loc : String) (ap : String → Bool) :
    ∀ (rs dep : List String) (c y : String) (b : Bool),
      (y, b) ∈ (smart_check_loop probe loc ap rs dep c).applies → y ∈ rs := by
  intro rs
  induction rs with
  | nil =>
      intro dep c y b h
      rw [smart_check_loop_nil] at h
      simp at h
  | cons next rest ih =>
      intro dep c y b h
      cases h1 : ap next with
      | true =>
          cases h2 : probe next loc with
          | true =>
              rw [smart_check_loop_cons_pos_pos probe loc ap next rest dep c
                h1 h2] at h
              simp at h
              exact h.1 ▸ List.mem_cons_self _ _
          | false =>
              rw [smart_check_loop_cons_pos_neg probe loc ap next rest dep c
                h1 h2] at h
              rcases List.mem_cons.mp h with h3 | h3
              · have : y = next := by
                  simpa using congrArg Prod.fst h3
                exact this ▸ List.mem_cons_self _ _
              · exact List.mem_cons_of_mem _ (ih _ _ y b h3)
      | false =>
          rw [smart_check_loop_cons_neg probe loc ap next rest dep c h1] at h
          rcases List.mem_cons.mp h with h3 | h3
          · have : y = next := by
              simpa using congrArg Prod.fst h3
            exact this ▸ List.mem_cons_self _ _
          · exact List.mem_cons_of_mem _ (ih _ _ y b h3)

lemma smart_check_loop_probes_loc (probe : String → String → Bool)
    (loc : String) (ap : String → Bool) :
    ∀ (rs dep : List String) (c : String)
      (pr : String × String),
      pr ∈ (smart_check_loop probe loc ap rs dep c).probes → pr.2 = loc := by
  intro rs
  induction rs with
  | nil =>
      intro dep c pr h
      rw [smart_check_loop_nil] at h
      simp at h
  | cons next rest ih =>
      intro dep c pr h
      cases h1 : ap next with
      | true =>
          cases h2 : probe next loc with
          | true =>
              rw [smart_check_loop_cons_pos_pos probe loc ap next rest dep c
                h1 h2] at h
              simp at h
              rw [h]
          | false =>
              rw [smart_check_loop_cons_pos_neg probe loc ap next rest dep c
                h1 h2] at h
              rcases List.mem_cons.mp h with h3 | h3
              · rw [h3]
              · exact ih _ _ pr h3
      | false =>
          rw [smart_check_loop_cons_neg probe loc ap next rest dep c h1] at h
          exact ih _ _ pr h

lemma smart_check_loop_inv (probe : String → String → Bool) (loc : String)
    (ap : String → Bool) :
    ∀ (rs dep : List String) (c : String),
      rs.Nodup → (∀ x ∈ rs, x ∉ dep) →
      ((smart_check_loop probe loc ap rs dep c).reserve.Nodup ∧
        ∀ x ∈ (smart_check_loop probe loc ap rs dep c).reserve,
          x ∉ (smart_check_loop probe loc ap rs dep c).deprecated) := by
  intro rs
  induction rs with
  | nil =>
      intro dep c _ _
      rw [smart_check_loop_nil]
      constructor
      · exact List.nodup_nil
      · intro x hx
        simp at hx
  | cons next rest ih =>
      intro dep c hnodup hdisj
      have hnodup' : rest.Nodup := (List.nodup_cons.mp hnodup).2
      have hnext : next ∉ rest := (List.nodup_cons.mp hnodup).1
      cases h1 : ap next with
      | true =>
          cases h2 : probe next loc with
          | true =>
              rw [smart_check_loop_cons_pos_pos probe loc ap next rest dep c
                h1 h2]
              exact ⟨hnodup', fun x hx =>
                hdisj x (List.mem_cons_of_mem _ hx)⟩
          | false =>
              rw [smart_check_loop_cons_pos_neg probe loc ap next rest dep c
                h1 h2]
              have hdep' : ∀ x ∈ rest,
                  x ∉ (if next ∈ dep then dep else dep ++ [next]) := by
                intro x hx
                by_cases h4 : next ∈ dep
                · rw [if_pos h4]
                  exact hdisj x (List.mem_cons_of_mem _ hx)
                · rw [if_neg h4]
                  intro hmem
                  rcases List.mem_append.mp hmem with h5 | h5
                  · exact hdisj x (List.mem_cons_of_mem _ hx) h5
                  · simp at h5
                    subst h5
                    exact hnext hx
              exact ih _ next hnodup' hdep'
      | false =>
          rw [smart_check_loop_cons_neg probe loc ap next rest dep c h1]
          exact ih dep c hnodup'
            (fun x hx => hdisj x (List.mem_cons_of_mem _ hx))

lemma smart_check_loop_dropped (probe : String → String → Bool)
    (loc : String) (ap : String → Bool) :
    ∀ (rs dep : List String) (c x : String),
      rs.Nodup → x ∉ dep →
      (x, false) ∈ (smart_check_loop probe loc ap rs dep c).applies →
      (x ∉ (smart_check_loop probe loc ap rs dep c).reserve ∧
        x ∉ (smart_check_loop probe loc ap rs dep c).deprecated) := by
  intro rs
  induction rs with
  | nil =>
      intro dep c x _ _ happ
      rw [smart_check_loop_nil] at happ
      simp at happ
  | cons next rest ih =>
      intro dep c x hnodup hxdep happ
      have hnodup' : rest.Nodup := (List.nodup_cons.mp hnodup).2
      have hnext : next ∉ rest := (List.nodup_cons.mp hnodup).1
      cases h1 : ap next with
      | true =>
          cases h2 : probe next loc with
          | true =>
              rw [smart_check_loop_cons_pos_pos probe loc ap next rest dep c
                h1 h2] at happ
              simp at happ
          | false =>
              rw [smart_check_loop_cons_pos_neg probe loc ap next rest dep c
                h1 h2] at happ ⊢
              rcases List.mem_cons.mp happ with h3 | h3
              · exact absurd (congrArg Prod.snd h3) (by simp)
              · have hxnext : x ≠ next := by
                  intro hxe
                  exact hnext (hxe ▸ smart_check_loop_applies_sub probe loc ap
                    rest _ next x false h3)
                have hxdep' : x ∉ (if next ∈ dep then dep else dep ++ [next]) := by
                  by_cases h4 : next ∈ dep
                  · rw [if_pos h4]
                    exact hxdep
                  · rw [if_neg h4]
                    intro hmem
                    rcases List.mem_append.mp hmem with h5 | h5
                    · exact hxdep h5
                    · simp at h5
                      exact hxnext h5
                exact ih _ next x hnodup' hxdep' h3
      | false =>
          rw [smart_check_loop_cons_neg probe loc ap next rest dep c h1]
            at happ ⊢
          rcases List.mem_cons.mp happ with h3 | h3
          · have hxe : x = next := by
              simpa using congrArg Prod.fst h3
            subst hxe
            constructor
            · intro hmem
              exact hnext (smart_check_loop_reserve_sub probe loc ap rest
                dep c x hmem)
            · intro hmem
              rcases smart_check_loop_dep_sub probe loc ap rest dep c x hmem
                with h4 | h4
              · exact hxdep h4
              · exact hnext h4
          · exact ih dep c x hnodup' hxdep h3

/-! ### Equations for the orchestrator -/

lemma run_smart_check_logic_none_eq (adminId : Nat)
    (settings : List RecordConfig) (zoneId recordId : String)
    (probe : String → String → Bool) (applyOk : String → Bool)
    (lists0 : IPLists) (userId : Nat) :
    run_smart_check_logic adminId none settings zoneId recordId probe applyOk
        lists0 userId =
      { msgs := [], lists := lists0, saved := false, finalContent := none,
        probes := [], applies := [], newIpFound := false } := rfl

lemma run_smart_check_logic_healthy_eq (adminId : Nat) (rec : DnsRecord)
    (settings : List RecordConfig) (zoneId recordId : String)
    (probe : String → String → Bool) (applyOk : String → Bool)
    (lists0 : IPLists) (userId : Nat)
    (hp : probe rec.content (check_location_of settings zoneId recordId) =
      true) :
    run_smart_check_logic adminId (some rec) settings zoneId recordId probe
        applyOk lists0 userId =
      { msgs := if userId ≠ 0 then [(userId, MsgKind.manualProbeReport)]
          else [],
        lists := lists0, saved := false, finalContent := some rec.content,
        probes := [(rec.content, check_location_of settings zoneId recordId)],
        applies := [], newIpFound := false } := by
  simp [run_smart_check_logic, hp]

lemma run_smart_check_logic_unhealthy_eq (adminId : Nat) (rec : DnsRecord)
    (settings : List RecordConfig) (zoneId recordId : String)
    (probe : String → String → Bool) (applyOk : String → Bool)
    (lists0 : IPLists) (userId : Nat)
    (hp : probe rec.content (check_location_of settings zoneId recordId) =
      false) :
    run_smart_check_logic adminId (some rec) settings zoneId recordId probe
        applyOk lists0 userId =
      (let r := smart_check_loop probe
        (check_location_of settings zoneId recordId) applyOk
        (lists0.reserve.erase rec.content)
        (if rec.content ∈ lists0.deprecated then lists0.deprecated
          else lists0.deprecated ++ [rec.content]) rec.content
       { msgs :=
          (if userId ≠ 0 then [(userId, MsgKind.manualProbeReport)]
            else []) ++
          [(if userId ≠ 0 then userId else adminId,
            MsgKind.runReport (!r.found))],
         lists := { reserve := r.reserve, deprecated := r.deprecated },
         saved := true, finalContent := some r.content,
         probes := (rec.content, check_location_of settings zoneId recordId)
           :: r.probes,
         applies := r.applies, newIpFound := r.found }) := by
  simp [run_smart_check_logic, hp]

/-! ### C1 -/

/-- C1: for a failover run whose current IP probes unhealthy, with
reserve [A, B, C] and empty deprecated list, where A applies but probes
unhealthy and B applies and probes healthy: after the run the record
content is B, the deprecated list is [old IP, A] and the reserve list is
[C].  The hypotheses state the probe and apply outcomes and that the old
IP is not one of the reserve candidates. -/
theorem failover_promotes_second_candidate (adminId : Nat) (rec : DnsRecord)
    (settings : List RecordConfig) (zoneId recordId : String)
    (probe : String → String → Bool) (applyOk : String → Bool)
    (A B C : String) (userId : Nat)
    (hcur : probe rec.content (check_location_of settings zoneId recordId) =
      false)
    (hA1 : applyOk A = true)
    (hA2 : probe A (check_location_of settings zoneId recordId) = false)
    (hB1 : applyOk B = true)
    (hB2 : probe B (check_location_of settings zoneId recordId) = true)
    (hold : rec.content ∉ [A, B, C]) :
    (run_smart_check_logic adminId (some rec) settings zoneId recordId probe
        applyOk { reserve := [A, B, C], deprecated := [] }
        userId).finalContent = some B ∧
    (run_smart_check_logic adminId (some rec) settings zoneId recordId probe
        applyOk { reserve := [A, B, C], deprecated := [] }
        userId).lists.deprecated = [rec.content, A] ∧
    (run_smart_check_logic adminId (some rec) settings zoneId recordId probe
        applyOk { reserve := [A, B, C], deprecated := [] }
        userId).lists.reserve = [C] := by
  have hAold : ¬ A = rec.content := fun h => hold (by simp [h])
  have herase :
      ({ reserve := [A, B, C], deprecated := [] } : IPLists).reserve.erase
        rec.content = [A, B, C] := List.erase_of_not_mem hold
  have hloop : smart_check_loop probe
      (check_location_of settings zoneId recordId) applyOk [A, B, C]
      [rec.content] rec.content =
      { reserve := [C], deprecated := [rec.content, A], content := B,
        found := true,
        probes := [(A, check_location_of settings zoneId recordId),
          (B, check_location_of settings zoneId recordId)],
        applies := [(A, true), (B, true)] } := by
    rw [smart_check_loop_cons_pos_neg probe _ applyOk A [B, C] [rec.content]
      rec.content hA1 hA2]
    simp only [List.mem_singleton, hAold, if_false]
    rw [smart_check_loop_cons_pos_pos probe _ applyOk B [C]
      ([rec.content] ++ [A]) A hB1 hB2]
    simp
  rw [run_smart_check_logic_unhealthy_eq adminId rec settings zoneId recordId
    probe applyOk { reserve := [A, B, C], deprecated := [] } userId hcur]
  simp [herase, hloop]

/-- DNS record shared by several witnesses. -/
def demo_record : DnsRecord :=
  { name := "app.example.com", type := "A", content := "5.5.5.5",
    ttl := 120, proxied := false }

/-- Probe oracle for the C1 witness: only 8.8.4.4 is healthy. -/
def demo_probe_B : String → String → Bool := fun ip _ => ip == "8.8.4.4"

/-- Pool used by the C1 witness. -/
def demo_pool_abc : IPLists :=
  { reserve := ["8.8.8.8", "8.8.4.4", "1.0.0.1"], deprecated := [] }

/-- Witness for C1 at concrete inputs: old IP 5.5.5.5, candidates
8.8.8.8 (applies, unhealthy), 8.8.4.4 (applies, healthy), 1.0.0.1. -/
theorem failover_promotes_second_candidate_witness :
    (run_smart_check_logic 0 (some demo_record) [] "z1" "r1" demo_probe_B
        (fun _ => true) demo_pool_abc 7).finalContent = some "8.8.4.4" ∧
    (run_smart_check_logic 0 (some demo_record) [] "z1" "r1" demo_probe_B
        (fun _ => true) demo_pool_abc 7).lists.deprecated =
      ["5.5.5.5", "8.8.8.8"] ∧
    (run_smart_check_logic 0 (some demo_record) [] "z1" "r1" demo_probe_B
        (fun _ => true) demo_pool_abc 7).lists.reserve = ["1.0.0.1"] :=
  failover_promotes_second_candidate 0 demo_record [] "z1" "r1" demo_probe_B
    (fun _ => true) "8.8.8.8" "8.8.4.4" "1.0.0.1" 7 (by decide) rfl
    (by decide) (by decide) (by decide) (by decide)

/-! ### C5 -/

/-- Counterexample for C5: a manually initiated run (userId 5) whose
record cannot be fetched sends no message at all — in particular no
report reaches the initiating user (bot.py lines 270-272 log and return
before any send). -/
theorem manual_run_record_not_found_sends_no_report :
    (run_smart_check_logic 0 none [] "z1" "r1" (fun _ _ => false)
      (fun _ => true) initial_ip_lists 5).msgs = [] := rfl

/-- C5 as amended: every manually initiated run whose record fetch
succeeds sends a report message to the initiating user — in all three
outcomes (still-healthy, remediated, exhausted), since the probe and
apply oracles and the pool are arbitrary — while a run whose record
cannot be fetched sends no messages at all. -/
theorem manual_run_reports_when_record_found (adminId : Nat)
    (rec : DnsRecord) (settings : List RecordConfig)
    (zoneId recordId : String) (probe : String → String → Bool)
    (applyOk : String → Bool) (lists0 : IPLists) (userId : Nat)
    (h : userId ≠ 0) :
    (userId, MsgKind.manualProbeReport) ∈
      (run_smart_check_logic adminId (some rec) settings zoneId recordId
        probe applyOk lists0 userId).msgs ∧
    (run_smart_check_logic adminId none settings zoneId recordId probe
      applyOk lists0 userId).msgs = [] := by
  constructor
  · cases hp : probe rec.content (check_location_of settings zoneId recordId)
    with
    | true =>
        rw [run_smart_check_logic_healthy_eq adminId rec settings zoneId
          recordId probe applyOk lists0 userId hp]
        simp [h]
    | false =>
        rw [run_smart_check_logic_unhealthy_eq adminId rec settings zoneId
          recordId probe applyOk lists0 userId hp]
        simp [h]
  · rfl

/-- Witness for C5 (amended): a concrete manual run with a fetched
record reports to user 5. -/
theorem manual_run_reports_when_record_found_witness :
    (5, MsgKind.manualProbeReport) ∈
      (run_smart_check_logic 0 (some demo_record) [] "z1" "r1"
        (fun _ _ => false) (fun _ => true) initial_ip_lists 5).msgs :=
  (manual_run_reports_when_record_found 0 demo_record [] "z1" "r1"
    (fun _ _ => false) (fun _ => true) initial_ip_lists 5 (by decide)).1

/-! ### C6 -/

/-- C6: a run whose current IP probes unhealthy while the reserve list
is empty ends exhausted: no update call is made, the record content is
left at the failed IP, the old IP is in the deprecated list, the
reserve list stays empty, and the run notification carrying the hard
warning is sent to the run's report target. -/
theorem exhausted_run_keeps_failed_record (adminId : Nat) (rec : DnsRecord)
    (settings : List RecordConfig) (zoneId recordId : String)
    (probe : String → String → Bool) (applyOk : String → Bool)
    (dep0 : List String) (userId : Nat)
    (hcur : probe rec.content (check_location_of settings zoneId recordId) =
      false) :
    (run_smart_check_logic adminId (some rec) settings zoneId recordId probe
        applyOk { reserve := [], deprecated := dep0 } userId).applies = [] ∧
    (run_smart_check_logic adminId (some rec) settings zoneId recordId probe
        applyOk { reserve := [], deprecated := dep0 }
        userId).finalContent = some rec.content ∧
    (run_smart_check_logic adminId (some rec) settings zoneId recordId probe
        applyOk { reserve := [], deprecated := dep0 }
        userId).newIpFound = false ∧
    rec.content ∈ (run_smart_check_logic adminId (some rec) settings zoneId
        recordId probe applyOk { reserve := [], deprecated := dep0 }
        userId).lists.deprecated ∧
    (run_smart_check_logic adminId (some rec) settings zoneId recordId probe
        applyOk { reserve := [], deprecated := dep0 }
        userId).lists.reserve = [] ∧
    (if userId ≠ 0 then userId else adminId, MsgKind.runReport true) ∈
      (run_smart_check_logic adminId (some rec) settings zoneId recordId
        probe applyOk { reserve := [], deprecated := dep0 } userId).msgs := by
  rw [run_smart_check_logic_unhealthy_eq adminId rec settings zoneId recordId
    probe applyOk { reserve := [], deprecated := dep0 } userId hcur]
  refine ⟨?_, ?_, ?_, ?_, ?_, ?_⟩
  · simp [smart_check_loop_nil]
  · simp [smart_check_loop_nil]
  · simp [smart_check_loop_nil]
  · by_cases h4 : rec.content ∈ dep0 <;> simp [smart_check_loop_nil, h4]
  · simp [smart_check_loop_nil]
  · simp [smart_check_loop_nil]

/-- Witness for C6: concrete exhausted run for user 7. -/
theorem exhausted_run_keeps_failed_record_witness :
    (run_smart_check_logic 0 (some demo_record) [] "z1" "r1"
        (fun _ _ => false) (fun _ => true)
        { reserve := [], deprecated := [] } 7).finalContent =
      some "5.5.5.5" ∧
    (7, MsgKind.runReport true) ∈
      (run_smart_check_logic 0 (some demo_record) [] "z1" "r1"
        (fun _ _ => false) (fun _ => true)
        { reserve := [], deprecated := [] } 7).msgs := by
  have h := exhausted_run_keeps_failed_record 0 demo_record [] "z1" "r1"
    (fun _ _ => false) (fun _ => true) [] 7 (by decide)
  exact ⟨h.2.1, by simpa using h.2.2.2.2.2⟩

/-! ### C8 -/

/-- C8: a candidate that is popped during a run and whose provider
update fails ends up in neither the reserve list nor the deprecated
list: it is dropped from the pool entirely.  Hypotheses: the pool
satisfies the no-duplicates shape, the candidate was not already
deprecated, it differs from the record's current IP, and the run's
apply trace shows the failed update for it. -/
theorem apply_failed_candidate_dropped (adminId : Nat) (rec : DnsRecord)
    (settings : List RecordConfig) (zoneId recordId : String)
    (probe : String → String → Bool) (applyOk : String → Bool)
    (lists0 : IPLists) (userId : Nat) (x : String)
    (hnodup : lists0.reserve.Nodup)
    (hxdep : x ∉ lists0.deprecated)
    (hxcur : x ≠ rec.content)
    (happ : (x, false) ∈ (run_smart_check_logic adminId (some rec) settings
      zoneId recordId probe applyOk lists0 userId).applies) :
    x ∉ (run_smart_check_logic adminId (some rec) settings zoneId recordId
        probe applyOk lists0 userId).lists.reserve ∧
    x ∉ (run_smart_check_logic adminId (some rec) settings zoneId recordId
        probe applyOk lists0 userId).lists.deprecated := by
  cases hp : probe rec.content (check_location_of settings zoneId recordId)
  with
  | true =>
      rw [run_smart_check_logic_healthy_eq adminId rec settings zoneId
        recordId probe applyOk lists0 userId hp] at happ
      simp at happ
  | false =>
      rw [run_smart_check_logic_unhealthy_eq adminId rec settings zoneId
        recordId probe applyOk lists0 userId hp] at happ ⊢
      have hxdep1 : x ∉ (if rec.content ∈ lists0.deprecated then
          lists0.deprecated else lists0.deprecated ++ [rec.content]) := by
        by_cases h4 : rec.content ∈ lists0.deprecated
        · rw [if_pos h4]
          exact hxdep
        · rw [if_neg h4]
          intro hmem
          rcases List.mem_append.mp hmem with h5 | h5
          · exact hxdep h5
          · simp at h5
            exact hxcur h5
      exact smart_check_loop_dropped probe
        (check_location_of settings zoneId recordId) applyOk
        (lists0.reserve.erase rec.content) _ rec.content x
        (hnodup.erase rec.content) hxdep1 happ

/-- Apply oracle for the C8 witness: the update for 8.8.8.8 fails,
every other update succeeds. -/
def demo_apply_fail_A : String → Bool := fun ip => !(ip == "8.8.8.8")

/-- Witness for C8: in a concrete run the candidate 8.8.8.8 fails to
apply and afterwards is in neither list. -/
theorem apply_failed_candidate_dropped_witness :
    ("8.8.8.8" : String) ∉
      (run_smart_check_logic 0 (some demo_record) [] "z1" "r1" demo_probe_B
        demo_apply_fail_A demo_pool_abc 7).lists.reserve ∧
    ("8.8.8.8" : String) ∉
      (run_smart_check_logic 0 (some demo_record) [] "z1" "r1" demo_probe_B
        demo_apply_fail_A demo_pool_abc 7).lists.deprecated :=
  apply_failed_candidate_dropped 0 demo_record [] "z1" "r1" demo_probe_B
    demo_apply_fail_A demo_pool_abc 7 "8.8.8.8" (by decide) (by decide)
    (by decide) (by decide)

/-! ### C9 -/

/-- C9: for every run on a record that has no monitor config entry, the
vantage defaults to "ir" both for the initial probe of the current IP
and for every candidate re-probe: every entry of the run's probe trace
carries location "ir". -/
theorem default_vantage_is_ir (adminId : Nat)
    (recordDetails : Option DnsRecord) (settings : List RecordConfig)
    (zoneId recordId : String) (probe : String → String → Bool)
    (applyOk : String → Bool) (lists0 : IPLists) (userId : Nat)
    (hnone : settings.find? (config_matches recordId zoneId) = none) :
    ∀ pr ∈ (run_smart_check_logic adminId recordDetails settings zoneId
      recordId probe applyOk lists0 userId).probes, pr.2 = "ir" := by
  have hloc : check_location_of settings zoneId recordId = "ir" := by
    simp [check_location_of, hnone]
  cases recordDetails with
  | none =>
      intro pr hpr
      rw [run_smart_check_logic_none_eq] at hpr
      simp at hpr
  | some rec =>
      intro pr hpr
      cases hp : probe rec.content (check_location_of settings zoneId
        recordId) with
      | true =>
          rw [run_smart_check_logic_healthy_eq adminId rec settings zoneId
            recordId probe applyOk lists0 userId hp] at hpr
          simp at hpr
          rw [hpr, hloc]
      | false =>
          rw [run_smart_check_logic_unhealthy_eq adminId rec settings zoneId
            recordId probe applyOk lists0 userId hp] at hpr
          rcases List.mem_cons.mp hpr with h3 | h3
          · rw [h3, hloc]
          · have := smart_check_loop_probes_loc probe
              (check_location_of settings zoneId recordId) applyOk _ _ _ pr h3
            rw [this, hloc]

/-- Witness for C9: a concrete run with an empty config store probes
only at vantage "ir" (every entry of its probe trace passes the
location check). -/
theorem default_vantage_is_ir_witness :
    ((run_smart_check_logic 0 (some demo_record) [] "z1" "r1" demo_probe_B
      (fun _ => true) demo_pool_abc 7).probes.all
        (fun pr => pr.2 == "ir")) = true := by
  rw [List.all_eq_true]
  intro pr hpr
  exact beq_iff_eq.mpr (default_vantage_is_ir 0 (some demo_record) [] "z1"
    "r1" demo_probe_B (fun _ => true) demo_pool_abc 7 rfl pr hpr)

/-! ### C3 -/

/-- Shape invariant of the shared IP pool: the reserve list has no
duplicates and no address is simultaneously in reserve and
deprecated. -/
def PoolInv (ls : IPLists) : Prop :=
  ls.reserve.Nodup ∧ ∀ x ∈ ls.reserve, x ∉ ls.deprecated

lemma add_ip_step_inv (st : IPLists × Nat) (ip : String)
    (h : PoolInv st.1) : PoolInv (add_ip_step st ip).1 := by
  unfold add_ip_step
  split
  · rename_i hcond
    refine ⟨?_, ?_⟩
    · refine List.nodup_append.mpr ⟨h.1, List.nodup_singleton ip, ?_⟩
      intro y hy hy2
      simp at hy2
      subst hy2
      exact hcond.1 hy
    · intro x hx
      rcases List.mem_append.mp hx with h1 | h1
      · exact h.2 x h1
      · simp at h1
        subst h1
        exact hcond.2
  · exact h

lemma add_fold_inv :
    ∀ (toks : List String) (st : IPLists × Nat), PoolInv st.1 →
      PoolInv (toks.foldl add_ip_step st).1
  | [], _, h => h
  | t :: rest, st, h =>
      add_fold_inv rest (add_ip_step st t) (add_ip_step_inv st t h)

lemma run_smart_check_logic_pool_inv (adminId : Nat)
    (recordDetails : Option DnsRecord) (settings : List RecordConfig)
    (zoneId recordId : String) (probe : String → String → Bool)
    (applyOk : String → Bool) (lists0 : IPLists) (userId : Nat)
    (h : PoolInv lists0) :
    PoolInv (run_smart_check_logic adminId recordDetails settings zoneId
      recordId probe applyOk lists0 userId).lists := by
  cases recordDetails with
  | none => exact h
  | some rec =>
      cases hp : probe rec.content
        (check_location_of settings zoneId recordId) with
      | true =>
          rw [run_smart_check_logic_healthy_eq adminId rec settings zoneId
            recordId probe applyOk lists0 userId hp]
          exact h
      | false =>
          rw [run_smart_check_logic_unhealthy_eq adminId rec settings zoneId
            recordId probe applyOk lists0 userId hp]
          have hnodup1 : (lists0.reserve.erase rec.content).Nodup :=
            h.1.erase rec.content
          have hdisj1 : ∀ x ∈ lists0.reserve.erase rec.content,
              x ∉ (if rec.content ∈ lists0.deprecated then lists0.deprecated
                else lists0.deprecated ++ [rec.content]) := by
            intro x hx
            have hxres : x ∈ lists0.reserve := List.mem_of_mem_erase hx
            have hxne : x ≠ rec.content := by
              intro hxe
              exact h.1.not_mem_erase (hxe ▸ hx)
            by_cases h4 : rec.content ∈ lists0.deprecated
            · rw [if_pos h4]
              exact h.2 x hxres
            · rw [if_neg h4]
              intro hmem
              rcases List.mem_append.mp hmem with h5 | h5
              · exact h.2 x hxres h5
              · simp at h5
                exact hxne h5
          have hres := smart_check_loop_inv probe
            (check_location_of settings zoneId recordId) applyOk
            (lists0.reserve.erase rec.content) _ rec.content hnodup1 hdisj1
          exact ⟨hres.1, hres.2⟩

lemma apply_pool_op_inv (ls : IPLists) (op : PoolOp) (h : PoolInv ls) :
    PoolInv (apply_pool_op ls op) := by
  cases op with
  | addReserve text => exact add_fold_inv (split_ips text) (ls, 0) h
  | smartCheck a rd st z r p ap u =>
      exact run_smart_check_logic_pool_inv a rd st z r p ap ls u h
  | clearDeprecated =>
      refine ⟨h.1, ?_⟩
      intro x hx
      exact List.not_mem_nil x

lemma foldl_pool_ops_inv :
    ∀ (ops : List PoolOp) (ls : IPLists), PoolInv ls →
      PoolInv (ops.foldl apply_pool_op ls)
  | [], _, h => h
  | op :: rest, ls, h => foldl_pool_ops_inv rest _ (apply_pool_op_inv ls op h)

/-- C3: starting from the seeded pool, no sequence of pool operations
(adding reserve IPs, failover runs, clearing the deprecated list) can
reach a state in which some address is simultaneously in the reserve
list and in the deprecated list. -/
theorem pool_reserve_deprecated_never_both (ops : List PoolOp) (x : String) :
    ¬ (x ∈ (ops.foldl apply_pool_op initial_ip_lists).reserve ∧
       x ∈ (ops.foldl apply_pool_op initial_ip_lists).deprecated) := by
  intro hmem
  have hinv : PoolInv initial_ip_lists := by
    refine ⟨by decide, ?_⟩
    intro y hy
    simp [initial_ip_lists]
  exact (foldl_pool_ops_inv ops initial_ip_lists hinv).2 x hmem.1 hmem.2

/-- Operation sequence for the C3 witness: an add, a failover run and a
deprecated purge. -/
def demo_ops : List PoolOp :=
  [PoolOp.addReserve demo_text,
   PoolOp.smartCheck 0 (some demo_record) [] "z1" "r1" demo_probe_B
     (fun _ => true) 0,
   PoolOp.clearDeprecated]

/-- Witness for C3: after the demo operation sequence the address
1.1.1.1 sits in the reserve list, and by the invariant it cannot also
be in the deprecated list. -/
theorem pool_reserve_deprecated_never_both_witness :
    ("1.1.1.1" : String) ∈
      (demo_ops.foldl apply_pool_op initial_ip_lists).reserve ∧
    ("1.1.1.1" : String) ∉
      (demo_ops.foldl apply_pool_op initial_ip_lists).deprecated := by
  refine ⟨by decide, fun hdep =>
    pool_reserve_deprecated_never_both demo_ops ("1.1.1.1")
      ⟨by decide, hdep⟩⟩

/-! ### C4 -/

/-- Record monitored by the first concurrent run in the C4 scenario. -/
def demo_record_x : DnsRecord :=
  { name := "a.example.com", type := "A", content := "203.0.113.1",
    ttl := 120, proxied := false }

/-- Record monitored by the second concurrent run in the C4 scenario. -/
def demo_record_y : DnsRecord :=
  { name := "b.example.com", type := "A", content := "203.0.113.2",
    ttl := 120, proxied := false }

/-- Probe oracle of the C4 scenario: only 8.8.8.8 is healthy. -/
def demo_probe_A : String → String → Bool := fun ip _ => ip == "8.8.8.8"

/-- Pool file shared by the two concurrent runs of the C4 scenario. -/
def demo_shared_pool : IPLists :=
  { reserve := ["8.8.8.8", "8.8.4.4"], deprecated := [] }

/-- The two interleaved runs of the C4 scenario. -/
def demo_concurrent : RunOutcome × RunOutcome × IPLists :=
  concurrent_runs_shared_load 0 demo_record_x demo_record_y [] "z1" "r1"
    "r2" demo_probe_A (fun _ => true) demo_shared_pool

/-- C4 fails on the code: the semaphore admits more than one run at a
time, and in the modelled interleaving — both runs load the pool file
before either saves, which the awaited candidate probe between load and
save permits — both runs pop and apply the same reserve candidate
8.8.8.8, and the save of the second run overwrites the first one's,
losing the deprecation of 203.0.113.1. -/
theorem concurrent_runs_pop_same_candidate :
    1 < main_semaphore_limit ∧
    demo_concurrent.1.applies = [("8.8.8.8", true)] ∧
    demo_concurrent.2.1.applies = [("8.8.8.8", true)] ∧
    demo_concurrent.2.2 =
      { reserve := ["8.8.4.4"], deprecated := ["203.0.113.2"] } ∧
    ("203.0.113.1" : String) ∉ demo_concurrent.2.2.deprecated := by
  refine ⟨by decide, by decide, by decide, by decide, by decide⟩
